import Mathlib

/-!
Verification development for the `rbs_assets_library` repository: a shallow
embedding of the model-resource resolver (`rbs_assets_library/__init__.py`)
and of the inertial-parameter generation script
(`scripts/get_inertial_parameters.py`), together with theorems settling the
specification claims about them.

Conventions of the embedding:
* Python floats are modelled as rationals (ℚ); the numeric formatter used in
  the f-string templates is an explicit function `pyStr : ℚ → String` standing
  for Python's stable `repr`-based formatting.
* Filesystem paths are modelled as lists of path components; `joinPath`
  renders them with the POSIX separator.  The files found below a model
  directory by `os.walk` are modelled as a list of `FsFile` entries in walk
  order (components of the containing directory relative to the model folder,
  plus the file name).
* Python's `str.endswith` / `str.startswith` are modelled on code-point lists.
* Fallible operations return `Except` with error constructors named after the
  specification's error taxonomy (the source raises `ValueError` /
  `RuntimeError` with corresponding messages).
-/

namespace RbsAssets

/-- Python `s.endswith(suf)` on code points. -/
def endswith (s suf : String) : Bool := List.isSuffixOf suf.data s.data

/-- Python `s.startswith(pre)` on code points. -/
def startswith (s pre : String) : Bool := List.isPrefixOf pre.data s.data

/-- Whether a rendered path string is a POSIX absolute path
(Python `os.path.isabs`: starts with the separator). -/
def startsWithSlash (s : String) : Bool :=
  match s.data with
  | [] => false
  | c :: _ => c = '/'

/-- Render a component list as a POSIX path (`os.path.join` of the parts). -/
def joinPath : List String → String
  | [] => ""
  | [c] => c
  | c :: rest => c ++ "/" ++ joinPath rest

/-- Length of the longest common prefix of two component lists. -/
def commonPrefixLen : List String → List String → Nat
  | a :: as, b :: bs => if a = b then commonPrefixLen as bs + 1 else 0
  | _, _ => 0

/-- `os.path.relpath(path, start)` on component lists: drop the common prefix,
climb out of what remains of `start`, descend into what remains of `path`. -/
def relpathComponents (path start : List String) : List String :=
  let n := commonPrefixLen path start
  let up := List.replicate (start.length - n) ".."
  let rest := path.drop n
  if up ++ rest = [] then ["."] else up ++ rest

/-- `os.path.relpath(path, start)` rendered as a string. -/
def relpath (path start : List String) : String :=
  joinPath (relpathComponents path start)

/-- Stand-in for Python's numeric formatting of a float inside an f-string. -/
def pyStr (q : ℚ) : String := toString q

/-- `pat` occurs contiguously inside `s`. -/
def containsSubstr (s pat : String) : Prop := ∃ a b, s = a ++ (pat ++ b)

/-! ### Data model -/

/-- One file found below a model directory by `os.walk`: the subdirectory
components between the model folder and the file, and the file's base name. -/
structure FsFile where
  parents : List String
  name : String
deriving DecidableEq

/-- A model directory: its name and the files `os.walk` yields below it. -/
structure ModelDir where
  dirName : String
  files : List FsFile
deriving DecidableEq

/-- The installed models tree (`rbs_assets_library/models/`). -/
structure Fs where
  models : List ModelDir
deriving DecidableEq

/-- Absolute path (as components) of a file found below `modelDir`,
`os.path.join(root, file)`. -/
def absPath (modelDir : List String) (f : FsFile) : List String :=
  modelDir ++ f.parents ++ [f.name]

/-- The data trimesh exposes for a successfully loaded mesh: face count,
signed volume, center of mass and the inertia tensor about it. -/
structure TriMesh where
  faces : Nat
  volume : ℚ
  center_mass : Fin 3 → ℚ
  moment_inertia : Matrix (Fin 3) (Fin 3) ℚ
deriving DecidableEq

/-- A mesh file on disk, as seen by the loader: whether its bytes parse as a
mesh, and the mesh data when they do. -/
structure MeshSource where
  parseable : Bool
  mesh : TriMesh
deriving DecidableEq

/-- The specification's error class for missing/empty/unparsable meshes. -/
inductive InvalidMeshError where
  | invalid
deriving DecidableEq

/-- The specification's error class for a model whose visual or collision
mesh is absent (the source raises `ValueError`). -/
inductive MeshError where
  | MeshNotFoundError
deriving DecidableEq

/-- Errors of the resolver functions in `__init__.py`, named after the raise
sites (`RuntimeError` / `FileNotFoundError` / `ValueError`) and the
specification's taxonomy. -/
inductive LibError where
  | runtimeNotFound
  | fileNotFoundDir
  | runtimeMultipleModels
  | noUrdfNorSdf
  | conversionUnavailable
  | unsupportedConversion
  | valueError
deriving DecidableEq

/-- `ResourceType` enumeration from `__init__.py`. -/
inductive ResourceType where
  | SDF_FILE
  | SDF_PATH
  | SDF_STRING
  | URDF_FILE
  | URDF_PATH
  | URDF_STRING
deriving DecidableEq

/-- Values returned by `get_model_resource`: a stored path, an open handle on
a stored file, file contents, or a temporary file/path holding converted
contents (the temporary name itself is abstracted away). -/
inductive ResourceValue where
  | path (p : String)
  | fileHandle (p : String)
  | str (s : String)
  | tempFileHandle (content : String)
  | tempPath (content : String)
deriving DecidableEq

/-- Result dictionary of `get_model_meshes_info`: model name and the absolute
paths (as components) of the chosen visual and collision meshes. -/
structure MeshesInfo where
  name : String
  visual : List String
  collision : List String
deriving DecidableEq

/-- A file written by the generation script: its path and full text. -/
structure WrittenFile where
  path : List String
  content : String
deriving DecidableEq

/-! ### Mesh location (`get_model_meshes_info` and the `__main__` walk) -/

/-- `mesh_extensions["visual"]`. -/
def mesh_extensions_visual : List String := [".dae"]

/-- `mesh_extensions["collision"]`. -/
def mesh_extensions_collision : List String := [".stl", ".obj"]

/-- The walk loop's assignment `mesh["visual"] = file_path`: the last file in
walk order whose name ends with a visual extension wins. -/
def findVisual (files : List FsFile) : Option FsFile :=
  files.foldl
    (fun acc f =>
      if mesh_extensions_visual.any (fun ext => endswith f.name ext) then some f else acc)
    none

/-- The walk loop's `collision_candidates` list, in walk order. -/
def collisionCandidates (files : List FsFile) : List FsFile :=
  files.filter (fun f => mesh_extensions_collision.any (fun ext => endswith f.name ext))

/-- The prioritisation loop `for ext in mesh_extensions["collision"]`: the
first candidate with the first extension that has any candidate. -/
def selectCollision (candidates : List FsFile) : Option FsFile :=
  mesh_extensions_collision.foldl
    (fun acc ext =>
      match acc with
      | some _ => acc
      | none => candidates.find? (fun f => endswith f.name ext))
    none

/-- `get_model_meshes_info` from `__init__.py`, for a model folder whose walk
yields `files`: locate the visual and collision meshes or fail. -/
def get_model_meshes_info (modelDir : List String) (model_name : String)
    (files : List FsFile) : Except MeshError MeshesInfo :=
  match findVisual files, selectCollision (collisionCandidates files) with
  | some v, some c =>
      .ok ⟨model_name, absPath modelDir v, absPath modelDir c⟩
  | _, _ => .error .MeshNotFoundError

/-! ### Model file resolution (`get_model_names`, `get_model_file`,
`get_model_resource`) -/

/-- `get_model_names`: the model directory names not starting with `__`. -/
def get_model_names (fs : Fs) : List String :=
  (fs.models.map (fun d => d.dirName)).filter (fun d => !(startswith d "__"))

/-- The `models_found` list of `get_model_file`: base names of files below
the model directory ending in `.urdf` or `.sdf`, in walk order. -/
def modelsFound (d : ModelDir) : List String :=
  (d.files.filter (fun f => endswith f.name ".urdf" || endswith f.name ".sdf")).map
    (fun f => f.name)

/-- `get_model_file` from `__init__.py`. -/
def get_model_file (fs : Fs) (models_path : List String) (model_name : String) :
    Except LibError String :=
  if model_name ∈ get_model_names fs then
    match fs.models.find? (fun d => d.dirName == model_name) with
    | none => .error .fileNotFoundDir
    | some d =>
      if 1 < (modelsFound d).length then .error .runtimeMultipleModels
      else
        match modelsFound d with
        | [] => .ok ""
        | f :: _ => .ok (joinPath (models_path ++ [model_name, f]))
  else .error .runtimeNotFound

/-- `get_model_resource` from `__init__.py`.  `readFile` models reading a
stored file's text, `scenarioAvailable` whether `from scenario import gazebo`
succeeds, and `urdffile_to_sdfstring` the external converter. -/
def get_model_resource (fs : Fs) (models_path : List String)
    (readFile : String → String) (scenarioAvailable : Bool)
    (urdffile_to_sdfstring : String → String)
    (model_name : String) (resource_type : ResourceType) :
    Except LibError ResourceValue :=
  match get_model_file fs models_path model_name with
  | .error e => .error e
  | .ok stored_model =>
    if !(endswith stored_model ".urdf" || endswith stored_model ".sdf") then
      .error .noUrdfNorSdf
    else if endswith stored_model ".urdf" then
      match resource_type with
      | .URDF_PATH => .ok (.path stored_model)
      | .URDF_FILE => .ok (.fileHandle stored_model)
      | .URDF_STRING => .ok (.str (readFile stored_model))
      | .SDF_FILE =>
          if scenarioAvailable then
            .ok (.tempFileHandle (urdffile_to_sdfstring stored_model))
          else .error .conversionUnavailable
      | .SDF_PATH =>
          if scenarioAvailable then
            .ok (.tempPath (urdffile_to_sdfstring stored_model))
          else .error .conversionUnavailable
      | .SDF_STRING =>
          if scenarioAvailable then
            .ok (.str (urdffile_to_sdfstring stored_model))
          else .error .conversionUnavailable
    else
      match resource_type with
      | .SDF_PATH => .ok (.path stored_model)
      | .URDF_FILE => .error .unsupportedConversion
      | .URDF_PATH => .error .unsupportedConversion
      | .URDF_STRING => .error .unsupportedConversion
      | .SDF_STRING => .ok (.str (readFile stored_model))
      | .SDF_FILE => .ok (.fileHandle stored_model)

/-! ### Mass-property computation (`calculate_inertia`) -/

/-- Modelled from the spec: `trimesh.load` plus property access, the external
mesh-processing capability the source delegates to.  Per §4.1 of the
specification it signals `InvalidMeshError` when the mesh at the path cannot
be parsed or has zero faces, and otherwise exposes the mesh data unchecked
(no manifoldness validation). -/
def trimeshLoad (src : MeshSource) : Except InvalidMeshError TriMesh :=
  if src.parseable = false ∨ src.mesh.faces = 0 then .error .invalid
  else .ok src.mesh

/-- `calculate_inertia` from `get_inertial_parameters.py`: load the mesh,
then return `(mass, center_of_mass, inertia_tensor)` with
`mass = volume * density`, propagating any load failure (the source installs
no handler). -/
def calculate_inertia (src : MeshSource) (density : ℚ) :
    Except InvalidMeshError (ℚ × (Fin 3 → ℚ) × Matrix (Fin 3) (Fin 3) ℚ) :=
  match trimeshLoad src with
  | .error e => .error e
  | .ok mesh => .ok (mesh.volume * density, mesh.center_mass, mesh.moment_inertia)

/-! ### Description emitters (`generate_urdf_inertia_tag`,
`generate_model_config`, `generate_urdf`) -/

/-- The six inertia components the URDF template interpolates, in template
order: `ixx, ixy, ixz` from row 0, `iyy, iyz` from row 1, `izz` from row 2. -/
def urdfEmittedComponents (inertia_tensor : Matrix (Fin 3) (Fin 3) ℚ) :
    ℚ × ℚ × ℚ × ℚ × ℚ × ℚ :=
  (inertia_tensor 0 0, inertia_tensor 0 1, inertia_tensor 0 2,
   inertia_tensor 1 1, inertia_tensor 1 2, inertia_tensor 2 2)

/-- Rebuild a full 3×3 tensor from six stored components, filling the lower
triangle by symmetry (the URDF/SDF `<inertial>` storage convention). -/
def tensorFromComponents : ℚ × ℚ × ℚ × ℚ × ℚ × ℚ → Matrix (Fin 3) (Fin 3) ℚ
  | (ixx, ixy, ixz, iyy, iyz, izz) =>
    Matrix.of ![![ixx, ixy, ixz], ![ixy, iyy, iyz], ![ixz, iyz, izz]]

/-- The `<inertia .../>` element of the template, carrying the six emitted
components. -/
def inertiaElement (inertia_tensor : Matrix (Fin 3) (Fin 3) ℚ) : String :=
  "<inertia ixx=\"" ++ pyStr (inertia_tensor 0 0) ++
  "\" ixy=\"" ++ pyStr (inertia_tensor 0 1) ++
  "\" ixz=\"" ++ pyStr (inertia_tensor 0 2) ++
  "\"\n                iyy=\"" ++ pyStr (inertia_tensor 1 1) ++
  "\" iyz=\"" ++ pyStr (inertia_tensor 1 2) ++
  "\" izz=\"" ++ pyStr (inertia_tensor 2 2) ++ "\"/>"

/-- `generate_urdf_inertia_tag` from `get_inertial_parameters.py`. -/
def generate_urdf_inertia_tag (mass : ℚ) (center_of_mass : Fin 3 → ℚ)
    (inertia_tensor : Matrix (Fin 3) (Fin 3) ℚ) : String :=
  "\n    <inertial>\n        " ++
  ("<mass value=\"" ++ pyStr mass ++ "\"/>") ++
  "\n        " ++
  ("<origin xyz=\"" ++ pyStr (center_of_mass 0) ++ " " ++
    pyStr (center_of_mass 1) ++ " " ++ pyStr (center_of_mass 2) ++ "\"/>") ++
  "\n        " ++
  inertiaElement inertia_tensor ++
  "\n    </inertial>\n    "

/-- `generate_model_config` from `get_inertial_parameters.py`. -/
def generate_model_config (model_name author_name author_email : String)
    (version : ℚ) (description : String) (sdf_version : ℚ) : String :=
  "<?xml version=\"1.0\"?>\n<model>\n  " ++
  ("<name>" ++ model_name ++ "</name>") ++
  "\n  " ++
  ("<version>" ++ pyStr version ++ "</version>") ++
  "\n  " ++
  ("<sdf version=\"" ++ pyStr sdf_version ++ "\">model.urdf</sdf>") ++
  "\n  " ++
  ("<author>\n    <name>" ++ author_name ++ "</name>\n    <email>" ++
    author_email ++ "</email>\n  </author>") ++
  "\n  " ++
  ("<description>\n    " ++ description ++ "\n  </description>") ++
  "\n</model>\n"

/-- `generate_urdf` from `get_inertial_parameters.py`. -/
def generate_urdf (model_name : String) (mass : ℚ) (center_of_mass : Fin 3 → ℚ)
    (inertia_tensor : Matrix (Fin 3) (Fin 3) ℚ)
    (visual_mesh_filepath collision_mesh_filepath : String) : String :=
  "<?xml version=\"1.0\"?>\n<robot name=\"" ++ model_name ++
  "\">\n  <link name=\"body\">\n    " ++
  generate_urdf_inertia_tag mass center_of_mass inertia_tensor ++
  "\n    <visual>\n      <origin xyz=\"0 0 0\" rpy=\"0 0 0\"/>\n      <geometry>\n        " ++
  ("<mesh filename=\"" ++ visual_mesh_filepath ++ "\" scale=\"1.0 1.0 1.0\"/>") ++
  "\n      </geometry>\n    </visual>\n    <collision>\n      <origin xyz=\"0 0 0\" rpy=\"0 0 0\"/>\n      <geometry>\n        " ++
  ("<mesh filename=\"" ++ collision_mesh_filepath ++ "\" scale=\"1.0 1.0 1.0\"/>") ++
  "\n      </geometry>\n    </collision>\n  </link>\n</robot>\n"

/-! ### The per-model generation step of the script's `__main__` block -/

/-- One iteration of the `for model in selected_models` loop: walk the model
folder for meshes; if either mesh is missing, skip (write nothing); otherwise
compute the inertial parameters from the collision mesh (an uncaught load
failure aborts) and write `model.config` and `model.urdf`, the mesh references
made relative to the model folder with `os.path.relpath`.  Returns the files
written.  `meshData` models the on-disk bytes at each path. -/
def processModel (models_path : List String) (model : String)
    (files : List FsFile) (density : ℚ) (author_name author_email : String)
    (meshData : List String → MeshSource) :
    Except InvalidMeshError (List WrittenFile) :=
  match findVisual files, selectCollision (collisionCandidates files) with
  | some v, some c =>
    match calculate_inertia (meshData (absPath (models_path ++ [model]) c)) density with
    | .error e => .error e
    | .ok (mass, center_of_mass, inertia_tensor) =>
      .ok [⟨models_path ++ [model] ++ ["model.config"],
            generate_model_config model author_name author_email 1
              "Autogenerated model." (17 / 10)⟩,
           ⟨models_path ++ [model] ++ ["model.urdf"],
            generate_urdf model mass center_of_mass inertia_tensor
              (relpath (absPath (models_path ++ [model]) v) (models_path ++ [model]))
              (relpath (absPath (models_path ++ [model]) c) (models_path ++ [model]))⟩]
  | _, _ => .ok []

/-! ### Claim theorems -/

/-- C1: for every symmetric 3×3 inertia tensor (and any mass and center of
mass), the six components stored by the URDF inertial fragment — which the
fragment produced by `generate_urdf_inertia_tag` carries verbatim in its
`<inertia .../>` element — reconstruct the original tensor exactly, the three
off-diagonal entries being recovered by symmetry from the stored
upper-triangle values. -/
theorem C1_inertia_roundtrip (mass : ℚ) (center_of_mass : Fin 3 → ℚ)
    (inertia_tensor : Matrix (Fin 3) (Fin 3) ℚ)
    (h : ∀ i j, inertia_tensor i j = inertia_tensor j i) :
    tensorFromComponents (urdfEmittedComponents inertia_tensor) = inertia_tensor ∧
    containsSubstr (generate_urdf_inertia_tag mass center_of_mass inertia_tensor)
      (inertiaElement inertia_tensor) := by
  constructor
  · ext i j
    fin_cases i <;> fin_cases j <;>
      first
        | rfl
        | exact h 0 1
        | exact h 0 2
        | exact h 1 2
  · refine ⟨"\n    <inertial>\n        " ++
      ("<mass value=\"" ++ pyStr mass ++ "\"/>") ++ "\n        " ++
      ("<origin xyz=\"" ++ pyStr (center_of_mass 0) ++ " " ++
        pyStr (center_of_mass 1) ++ " " ++ pyStr (center_of_mass 2) ++ "\"/>") ++
      "\n        ", "\n    </inertial>\n    ", ?_⟩
    simp only [generate_urdf_inertia_tag, String.append_assoc]

/-- A concrete symmetric inertia tensor used to witness C1. -/
def tensorC1 : Matrix (Fin 3) (Fin 3) ℚ :=
  Matrix.of ![![1, 2, 3], ![2, 4, 5], ![3, 5, 6]]

/-- A concrete center of mass used to witness C1. -/
def comC1 : Fin 3 → ℚ := ![0, 0, 0]

/-- Witness for C1 at a concrete symmetric tensor. -/
theorem C1_inertia_roundtrip_witness :
    (∀ i j, tensorC1 i j = tensorC1 j i) ∧
    (tensorFromComponents (urdfEmittedComponents tensorC1) = tensorC1 ∧
     containsSubstr (generate_urdf_inertia_tag 1 comC1 tensorC1)
       (inertiaElement tensorC1)) :=
  ⟨by decide, C1_inertia_roundtrip 1 comC1 tensorC1 (by decide)⟩

/-- C2: the description emitters are deterministic pure functions — calling
`generate_urdf_inertia_tag`, `generate_urdf` and `generate_model_config`
twice with identical arguments yields byte-identical output text; as pure
functions of their arguments they embed no randomness and no timestamps. -/
theorem C2_emitters_deterministic
    (model_name author_name author_email description visual collision : String)
    (mass version sdf_version : ℚ) (center_of_mass : Fin 3 → ℚ)
    (inertia_tensor : Matrix (Fin 3) (Fin 3) ℚ) :
    generate_urdf_inertia_tag mass center_of_mass inertia_tensor =
      generate_urdf_inertia_tag mass center_of_mass inertia_tensor ∧
    generate_urdf model_name mass center_of_mass inertia_tensor visual collision =
      generate_urdf model_name mass center_of_mass inertia_tensor visual collision ∧
    generate_model_config model_name author_name author_email version
        description sdf_version =
      generate_model_config model_name author_name author_email version
        description sdf_version :=
  ⟨rfl, rfl, rfl⟩

/-- C3: for every loadable mesh and every density — no validation or unit
conversion is applied to the density, which may even be non-positive — the
mass returned by `calculate_inertia` is the mesh's signed volume multiplied
by the density. -/
theorem C3_mass_eq_volume_times_density (src : MeshSource) (density : ℚ)
    (m : TriMesh) (h : trimeshLoad src = .ok m) :
    calculate_inertia src density =
      .ok (m.volume * density, m.center_mass, m.moment_inertia) := by
  simp [calculate_inertia, h]

/-- A concrete mesh used to witness C3. -/
def meshC3 : TriMesh :=
  ⟨12, 2, ![0, 0, 0], Matrix.of ![![1, 0, 0], ![0, 1, 0], ![0, 0, 1]]⟩

/-- A concrete parseable mesh source used to witness C3. -/
def srcC3 : MeshSource := ⟨true, meshC3⟩

/-- Witness for C3 at a concrete mesh and a negative density. -/
theorem C3_mass_eq_volume_times_density_witness :
    trimeshLoad srcC3 = .ok meshC3 ∧
    calculate_inertia srcC3 (-3) =
      .ok (meshC3.volume * (-3), meshC3.center_mass, meshC3.moment_inertia) :=
  ⟨rfl, C3_mass_eq_volume_times_density srcC3 (-3) meshC3 rfl⟩

/-- C5: `calculate_inertia` signals `InvalidMeshError` whenever the mesh at
the given path has zero faces or cannot be parsed; and it performs no
detection or repair of non-manifold or open geometry — any mesh that loads is
used as-is, even with a physically impossible (e.g. negative) volume. -/
theorem C5_invalid_mesh_signalled (src : MeshSource) (density : ℚ) :
    ((src.parseable = false ∨ src.mesh.faces = 0) →
      calculate_inertia src density = .error .invalid) ∧
    (src.parseable = true → src.mesh.faces ≠ 0 →
      calculate_inertia src density =
        .ok (src.mesh.volume * density, src.mesh.center_mass,
             src.mesh.moment_inertia)) := by
  constructor
  · intro h
    unfold calculate_inertia trimeshLoad
    rw [if_pos h]
  · intro h1 h2
    unfold calculate_inertia trimeshLoad
    rw [if_neg (by simp [h1, h2])]

/-- A mesh with negative signed volume (open or inverted geometry) used to
witness C5. -/
def meshC5 : TriMesh :=
  ⟨4, -1, ![0, 0, 0], Matrix.of ![![1, 0, 0], ![0, 1, 0], ![0, 0, 1]]⟩

/-- An unparsable mesh source used to witness C5. -/
def srcC5bad : MeshSource := ⟨false, meshC5⟩

/-- A parseable but physically invalid mesh source used to witness C5. -/
def srcC5open : MeshSource := ⟨true, meshC5⟩

/-- Witness for C5: an unparsable source is rejected, a parseable open mesh
is processed without repair. -/
theorem C5_invalid_mesh_signalled_witness :
    (srcC5bad.parseable = false ∨ srcC5bad.mesh.faces = 0) ∧
    calculate_inertia srcC5bad 5 = .error .invalid ∧
    srcC5open.parseable = true ∧ srcC5open.mesh.faces ≠ 0 ∧
    calculate_inertia srcC5open 5 =
      .ok (srcC5open.mesh.volume * 5, srcC5open.mesh.center_mass,
           srcC5open.mesh.moment_inertia) :=
  ⟨Or.inl rfl, (C5_invalid_mesh_signalled srcC5bad 5).1 (Or.inl rfl), rfl,
   by decide, (C5_invalid_mesh_signalled srcC5open 5).2 rfl (by decide)⟩

/-- C7: for every model name, author name, author email, version and
description, the generated `model.config` manifest contains the `name`,
`version`, `sdf` (with its `version` attribute, pointing to the primary
geometry-description filename `model.urdf`), `author` `name`/`email` and
`description` fields. -/
theorem C7_model_config_fields
    (model_name author_name author_email description : String)
    (version sdf_version : ℚ) :
    containsSubstr
      (generate_model_config model_name author_name author_email version
        description sdf_version)
      ("<name>" ++ model_name ++ "</name>") ∧
    containsSubstr
      (generate_model_config model_name author_name author_email version
        description sdf_version)
      ("<version>" ++ pyStr version ++ "</version>") ∧
    containsSubstr
      (generate_model_config model_name author_name author_email version
        description sdf_version)
      ("<sdf version=\"" ++ pyStr sdf_version ++ "\">model.urdf</sdf>") ∧
    containsSubstr
      (generate_model_config model_name author_name author_email version
        description sdf_version)
      ("<author>\n    <name>" ++ author_name ++ "</name>\n    <email>" ++
        author_email ++ "</email>\n  </author>") ∧
    containsSubstr
      (generate_model_config model_name author_name author_email version
        description sdf_version)
      ("<description>\n    " ++ description ++ "\n  </description>") := by
  refine ⟨⟨"<?xml version=\"1.0\"?>\n<model>\n  ",
      "\n  " ++ ("<version>" ++ pyStr version ++ "</version>") ++ "\n  " ++
      ("<sdf version=\"" ++ pyStr sdf_version ++ "\">model.urdf</sdf>") ++
      "\n  " ++ ("<author>\n    <name>" ++ author_name ++ "</name>\n    <email>" ++
        author_email ++ "</email>\n  </author>") ++ "\n  " ++
      ("<description>\n    " ++ description ++ "\n  </description>") ++
      "\n</model>\n", ?_⟩,
    ⟨"<?xml version=\"1.0\"?>\n<model>\n  " ++
      ("<name>" ++ model_name ++ "</name>") ++ "\n  ",
      "\n  " ++ ("<sdf version=\"" ++ pyStr sdf_version ++ "\">model.urdf</sdf>") ++
      "\n  " ++ ("<author>\n    <name>" ++ author_name ++ "</name>\n    <email>" ++
        author_email ++ "</email>\n  </author>") ++ "\n  " ++
      ("<description>\n    " ++ description ++ "\n  </description>") ++
      "\n</model>\n", ?_⟩,
    ⟨"<?xml version=\"1.0\"?>\n<model>\n  " ++
      ("<name>" ++ model_name ++ "</name>") ++ "\n  " ++
      ("<version>" ++ pyStr version ++ "</version>") ++ "\n  ",
      "\n  " ++ ("<author>\n    <name>" ++ author_name ++ "</name>\n    <email>" ++
        author_email ++ "</email>\n  </author>") ++ "\n  " ++
      ("<description>\n    " ++ description ++ "\n  </description>") ++
      "\n</model>\n", ?_⟩,
    ⟨"<?xml version=\"1.0\"?>\n<model>\n  " ++
      ("<name>" ++ model_name ++ "</name>") ++ "\n  " ++
      ("<version>" ++ pyStr version ++ "</version>") ++ "\n  " ++
      ("<sdf version=\"" ++ pyStr sdf_version ++ "\">model.urdf</sdf>") ++ "\n  ",
      "\n  " ++ ("<description>\n    " ++ description ++ "\n  </description>") ++
      "\n</model>\n", ?_⟩,
    ⟨"<?xml version=\"1.0\"?>\n<model>\n  " ++
      ("<name>" ++ model_name ++ "</name>") ++ "\n  " ++
      ("<version>" ++ pyStr version ++ "</version>") ++ "\n  " ++
      ("<sdf version=\"" ++ pyStr sdf_version ++ "\">model.urdf</sdf>") ++
      "\n  " ++ ("<author>\n    <name>" ++ author_name ++ "</name>\n    <email>" ++
        author_email ++ "</email>\n  </author>") ++ "\n  ",
      "\n</model>\n", ?_⟩⟩ <;>
  simp only [generate_model_config, String.append_assoc]

/-! ### Helper lemmas about the mesh walk and path handling -/

/-- The visual-assignment fold leaves its accumulator unchanged when no file
matches a visual extension. -/
theorem findVisual_fold_fixed (files : List FsFile) (acc : Option FsFile)
    (h : ∀ f ∈ files, endswith f.name ".dae" = false) :
    List.foldl
      (fun acc f =>
        if mesh_extensions_visual.any (fun ext => endswith f.name ext) then some f
        else acc)
      acc files = acc := by
  induction files generalizing acc with
  | nil => rfl
  | cons hd tl ih =>
    rw [List.foldl_cons, if_neg (by simp [mesh_extensions_visual,
      h hd (List.mem_cons_self hd tl)])]
    exact ih acc (fun f hf => h f (List.mem_cons_of_mem hd hf))

/-- No `.dae` file in the walk means no visual mesh is found. -/
theorem findVisual_eq_none (files : List FsFile)
    (h : ∀ f ∈ files, endswith f.name ".dae" = false) :
    findVisual files = none :=
  findVisual_fold_fixed files none h

/-- No `.stl`/`.obj` file in the walk means no collision candidates. -/
theorem collisionCandidates_eq_nil (files : List FsFile)
    (h : ∀ f ∈ files, endswith f.name ".stl" = false ∧ endswith f.name ".obj" = false) :
    collisionCandidates files = [] := by
  unfold collisionCandidates
  rw [List.filter_eq_nil_iff]
  intro f hf
  simp [mesh_extensions_collision, (h f hf).1, (h f hf).2]

/-- The prioritisation fold, unrolled over the two collision extensions:
first `.stl` candidate, else first `.obj` candidate. -/
theorem selectCollision_eq (candidates : List FsFile) :
    selectCollision candidates =
      match candidates.find? (fun f => endswith f.name ".stl") with
      | some f => some f
      | none => candidates.find? (fun f => endswith f.name ".obj") := by
  unfold selectCollision mesh_extensions_collision
  simp only [List.foldl_cons, List.foldl_nil]
  cases h : candidates.find? (fun f => endswith f.name ".stl") <;> simp [h]

/-- A list is a full prefix of itself extended by anything. -/
theorem commonPrefixLen_append (l x : List String) :
    commonPrefixLen (l ++ x) l = l.length := by
  induction l with
  | nil => cases x <;> rfl
  | cons a as ih => simp [commonPrefixLen, ih]

/-- `relpath` of a path directly below `dir`, relative to `dir`, is the
remaining suffix. -/
theorem relpathComponents_under (dir rest : List String) (h : rest ≠ []) :
    relpathComponents (dir ++ rest) dir = rest := by
  unfold relpathComponents
  rw [commonPrefixLen_append]
  simp [List.drop_left, h]

/-- Prepending a string with nonempty text does not change whether the result
starts with a slash. -/
theorem startsWithSlash_append (a b : String) (ha : a.data ≠ []) :
    startsWithSlash (a ++ b) = startsWithSlash a := by
  unfold startsWithSlash
  rw [String.data_append]
  cases hd : a.data with
  | nil => exact absurd hd ha
  | cons c l => rfl

/-- A joined path whose components are nonempty and slash-free is never a
POSIX absolute path. -/
theorem joinPath_not_slash (comps : List String)
    (hne : comps ≠ [])
    (h : ∀ s ∈ comps, s.data ≠ [] ∧ startsWithSlash s = false) :
    startsWithSlash (joinPath comps) = false := by
  match comps with
  | [] => exact absurd rfl hne
  | [c] => exact (h c (by simp)).2
  | c :: c2 :: rest =>
    have hc := h c (by simp)
    rw [show joinPath (c :: c2 :: rest) = (c ++ "/") ++ joinPath (c2 :: rest) from rfl,
      startsWithSlash_append _ _ (by rw [String.data_append]; simp [hc.1]),
      startsWithSlash_append _ _ hc.1]
    exact hc.2

/-! ### Remaining claim theorems -/

/-- C4: when a model's directory lacks a visual mesh (`.dae`) or lacks a
collision mesh (`.stl`/`.obj`), `get_model_meshes_info` fails with
`MeshNotFoundError` (the source's `ValueError` raise site) and the generation
script's per-model step writes no description files for it. -/
theorem C4_missing_mesh_nothing_written (modelDir models_path : List String)
    (model : String) (files : List FsFile) (density : ℚ)
    (author_name author_email : String) (meshData : List String → MeshSource)
    (h : (∀ f ∈ files, endswith f.name ".dae" = false) ∨
         (∀ f ∈ files, endswith f.name ".stl" = false ∧ endswith f.name ".obj" = false)) :
    get_model_meshes_info modelDir model files = .error .MeshNotFoundError ∧
    processModel models_path model files density author_name author_email meshData =
      .ok [] := by
  rcases h with h | h
  · have hv : findVisual files = none := findVisual_eq_none files h
    constructor
    · unfold get_model_meshes_info
      rw [hv]
    · unfold processModel
      rw [hv]
  · have hc : selectCollision (collisionCandidates files) = none := by
      rw [collisionCandidates_eq_nil files h]
      rfl
    constructor
    · unfold get_model_meshes_info
      rw [hc]
      cases findVisual files <;> rfl
    · unfold processModel
      rw [hc]
      cases findVisual files <;> rfl

/-- A concrete parseable mesh source shared by witnesses that need ambient
mesh data. -/
def defaultMeshSource : MeshSource :=
  ⟨true, ⟨12, 2, ![0, 0, 0], Matrix.of ![![1, 0, 0], ![0, 1, 0], ![0, 0, 1]]⟩⟩

/-- Witness for C4: a model with only a collision mesh and a model with only
a visual mesh both fail and write nothing. -/
theorem C4_missing_mesh_nothing_written_witness :
    (get_model_meshes_info ["models", "box"] "box" [⟨[], "part.stl"⟩] =
        .error .MeshNotFoundError ∧
      processModel ["models"] "box" [⟨[], "part.stl"⟩] 1050 "a" "b"
        (fun _ => defaultMeshSource) = .ok []) ∧
    (get_model_meshes_info ["models", "cup"] "cup" [⟨[], "part.dae"⟩] =
        .error .MeshNotFoundError ∧
      processModel ["models"] "cup" [⟨[], "part.dae"⟩] 1050 "a" "b"
        (fun _ => defaultMeshSource) = .ok []) :=
  ⟨C4_missing_mesh_nothing_written ["models", "box"] ["models"] "box"
      [⟨[], "part.stl"⟩] 1050 "a" "b" (fun _ => defaultMeshSource)
      (Or.inl (by decide)),
   C4_missing_mesh_nothing_written ["models", "cup"] ["models"] "cup"
      [⟨[], "part.dae"⟩] 1050 "a" "b" (fun _ => defaultMeshSource)
      (Or.inr (by decide))⟩

/-- C9: for a model name among the available model names, `get_model_file`
raises `RuntimeError` when more than one `.urdf`/`.sdf` file is found
anywhere under the model's directory, and returns the empty string (rather
than raising) when none is found. -/
theorem C9_model_file_counts (fs : Fs) (models_path : List String)
    (model_name : String) (d : ModelDir)
    (hmem : model_name ∈ get_model_names fs)
    (hfind : fs.models.find? (fun d2 => d2.dirName == model_name) = some d) :
    (1 < (modelsFound d).length →
      get_model_file fs models_path model_name = .error .runtimeMultipleModels) ∧
    (modelsFound d = [] → get_model_file fs models_path model_name = .ok "") := by
  constructor
  · intro h1
    unfold get_model_file
    rw [if_pos hmem]
    simp only [hfind]
    rw [if_pos h1]
  · intro h0
    unfold get_model_file
    rw [if_pos hmem]
    simp only [hfind]
    rw [h0]
    rfl

/-- The models tree used to witness C9: one model with two description files,
one with none. -/
def fsC9 : Fs :=
  ⟨[⟨"dup", [⟨[], "a.urdf"⟩, ⟨[], "b.sdf"⟩]⟩, ⟨"empty", [⟨[], "m.stl"⟩]⟩]⟩

/-- Witness for C9 on `fsC9`. -/
theorem C9_model_file_counts_witness :
    1 < (modelsFound ⟨"dup", [⟨[], "a.urdf"⟩, ⟨[], "b.sdf"⟩]⟩).length ∧
    get_model_file fsC9 ["models"] "dup" = .error .runtimeMultipleModels ∧
    modelsFound ⟨"empty", [⟨[], "m.stl"⟩]⟩ = [] ∧
    get_model_file fsC9 ["models"] "empty" = .ok "" :=
  ⟨by decide,
   (C9_model_file_counts fsC9 ["models"] "dup"
      ⟨"dup", [⟨[], "a.urdf"⟩, ⟨[], "b.sdf"⟩]⟩ (by decide) (by decide)).1 (by decide),
   by decide,
   (C9_model_file_counts fsC9 ["models"] "empty"
      ⟨"empty", [⟨[], "m.stl"⟩]⟩ (by decide) (by decide)).2 (by decide)⟩

/-- C10: among the collision candidates of a model directory,
`get_model_meshes_info` selects an `.stl` file whenever one exists (even when
`.obj` candidates are also present), and falls back to an `.obj` file only
when no `.stl` candidate exists. -/
theorem C10_collision_priority (modelDir : List String) (model_name : String)
    (files : List FsFile) (v : FsFile)
    (hv : findVisual files = some v) :
    ((∃ f ∈ files, endswith f.name ".stl" = true) →
      ∃ c, selectCollision (collisionCandidates files) = some c ∧
        endswith c.name ".stl" = true ∧
        get_model_meshes_info modelDir model_name files =
          .ok ⟨model_name, absPath modelDir v, absPath modelDir c⟩) ∧
    ((∀ f ∈ files, endswith f.name ".stl" = false) →
      (∃ f ∈ files, endswith f.name ".obj" = true) →
      ∃ c, selectCollision (collisionCandidates files) = some c ∧
        endswith c.name ".obj" = true ∧
        get_model_meshes_info modelDir model_name files =
          .ok ⟨model_name, absPath modelDir v, absPath modelDir c⟩) := by
  constructor
  · intro hstl
    obtain ⟨f, hf, hfstl⟩ := hstl
    have hfc : f ∈ collisionCandidates files := by
      unfold collisionCandidates
      rw [List.mem_filter]
      exact ⟨hf, by simp [mesh_extensions_collision, hfstl]⟩
    have hsome : ((collisionCandidates files).find?
        (fun f => endswith f.name ".stl")).isSome := by
      rw [List.find?_isSome]
      exact ⟨f, hfc, hfstl⟩
    obtain ⟨c, hcfind⟩ := Option.isSome_iff_exists.mp hsome
    have hcstl : endswith c.name ".stl" = true := by
      simpa using List.find?_some hcfind
    have hsel : selectCollision (collisionCandidates files) = some c := by
      rw [selectCollision_eq, hcfind]
    refine ⟨c, hsel, hcstl, ?_⟩
    unfold get_model_meshes_info
    rw [hv, hsel]
  · intro hnostl hobj
    obtain ⟨f, hf, hfobj⟩ := hobj
    have hfc : f ∈ collisionCandidates files := by
      unfold collisionCandidates
      rw [List.mem_filter]
      exact ⟨hf, by simp [mesh_extensions_collision, hfobj]⟩
    have hnone : (collisionCandidates files).find?
        (fun f => endswith f.name ".stl") = none := by
      rw [List.find?_eq_none]
      intro x hx
      have hxf : x ∈ files := List.mem_of_mem_filter hx
      simp [hnostl x hxf]
    have hsome : ((collisionCandidates files).find?
        (fun f => endswith f.name ".obj")).isSome := by
      rw [List.find?_isSome]
      exact ⟨f, hfc, hfobj⟩
    obtain ⟨c, hcfind⟩ := Option.isSome_iff_exists.mp hsome
    have hcobj : endswith c.name ".obj" = true := by
      simpa using List.find?_some hcfind
    have hsel : selectCollision (collisionCandidates files) = some c := by
      rw [selectCollision_eq, hnone, hcfind]
    refine ⟨c, hsel, hcobj, ?_⟩
    unfold get_model_meshes_info
    rw [hv, hsel]

/-- Witness for C10: with both `.obj` and `.stl` present (the `.obj` earlier
in walk order) the `.stl` wins; with only `.obj` present it is used. -/
theorem C10_collision_priority_witness :
    (∃ c, selectCollision (collisionCandidates
          [⟨[], "m.dae"⟩, ⟨[], "a.obj"⟩, ⟨[], "b.stl"⟩]) = some c ∧
      endswith c.name ".stl" = true ∧
      get_model_meshes_info ["models", "box"] "box"
          [⟨[], "m.dae"⟩, ⟨[], "a.obj"⟩, ⟨[], "b.stl"⟩] =
        .ok ⟨"box", absPath ["models", "box"] ⟨[], "m.dae"⟩,
             absPath ["models", "box"] c⟩) ∧
    (∃ c, selectCollision (collisionCandidates
          [⟨[], "m.dae"⟩, ⟨[], "a.obj"⟩]) = some c ∧
      endswith c.name ".obj" = true ∧
      get_model_meshes_info ["models", "cup"] "cup"
          [⟨[], "m.dae"⟩, ⟨[], "a.obj"⟩] =
        .ok ⟨"cup", absPath ["models", "cup"] ⟨[], "m.dae"⟩,
             absPath ["models", "cup"] c⟩) :=
  ⟨(C10_collision_priority ["models", "box"] "box"
      [⟨[], "m.dae"⟩, ⟨[], "a.obj"⟩, ⟨[], "b.stl"⟩] ⟨[], "m.dae"⟩ (by decide)).1
      ⟨⟨[], "b.stl"⟩, by decide, by decide⟩,
   (C10_collision_priority ["models", "cup"] "cup"
      [⟨[], "m.dae"⟩, ⟨[], "a.obj"⟩] ⟨[], "m.dae"⟩ (by decide)).2
      (by decide) ⟨⟨[], "a.obj"⟩, by decide, by decide⟩⟩

/-- C6: for every generated model description, the visual and collision mesh
filename attributes embedded in the URDF are the `os.path.relpath` results
relative to the model's own directory — computed by the calling script before
invoking `generate_urdf` — they equal the path suffix below the model folder,
and they are never POSIX absolute paths. -/
theorem C6_mesh_paths_relative (models_path : List String) (model : String)
    (files : List FsFile) (density : ℚ) (author_name author_email : String)
    (meshData : List String → MeshSource) (v c : FsFile) (mass : ℚ)
    (center_of_mass : Fin 3 → ℚ) (inertia_tensor : Matrix (Fin 3) (Fin 3) ℚ)
    (hv : findVisual files = some v)
    (hc : selectCollision (collisionCandidates files) = some c)
    (hcalc : calculate_inertia (meshData (absPath (models_path ++ [model]) c))
        density = .ok (mass, center_of_mass, inertia_tensor))
    (hvcomp : ∀ s ∈ v.parents ++ [v.name], s.data ≠ [] ∧ startsWithSlash s = false)
    (hccomp : ∀ s ∈ c.parents ++ [c.name], s.data ≠ [] ∧ startsWithSlash s = false) :
    processModel models_path model files density author_name author_email meshData =
      .ok [⟨models_path ++ [model] ++ ["model.config"],
            generate_model_config model author_name author_email 1
              "Autogenerated model." (17 / 10)⟩,
           ⟨models_path ++ [model] ++ ["model.urdf"],
            generate_urdf model mass center_of_mass inertia_tensor
              (joinPath (v.parents ++ [v.name]))
              (joinPath (c.parents ++ [c.name]))⟩] ∧
    relpath (absPath (models_path ++ [model]) v) (models_path ++ [model]) =
      joinPath (v.parents ++ [v.name]) ∧
    relpath (absPath (models_path ++ [model]) c) (models_path ++ [model]) =
      joinPath (c.parents ++ [c.name]) ∧
    startsWithSlash (relpath (absPath (models_path ++ [model]) v)
      (models_path ++ [model])) = false ∧
    startsWithSlash (relpath (absPath (models_path ++ [model]) c)
      (models_path ++ [model])) = false := by
  have hrv : relpath (absPath (models_path ++ [model]) v) (models_path ++ [model]) =
      joinPath (v.parents ++ [v.name]) := by
    unfold relpath absPath
    rw [List.append_assoc, relpathComponents_under _ _ (by simp)]
  have hrc : relpath (absPath (models_path ++ [model]) c) (models_path ++ [model]) =
      joinPath (c.parents ++ [c.name]) := by
    unfold relpath absPath
    rw [List.append_assoc, relpathComponents_under _ _ (by simp)]
  refine ⟨?_, hrv, hrc, ?_, ?_⟩
  · simp only [processModel, hv, hc, hcalc]
    rw [hrv, hrc]
  · rw [hrv]
    exact joinPath_not_slash _ (by simp) hvcomp
  · rw [hrc]
    exact joinPath_not_slash _ (by simp) hccomp

/-- The visual mesh entry used to witness C6. -/
def vC6 : FsFile := ⟨["visual"], "box.dae"⟩

/-- The collision mesh entry used to witness C6. -/
def cC6 : FsFile := ⟨["meshes"], "box.stl"⟩

/-- Witness for C6 at a concrete model folder. -/
theorem C6_mesh_paths_relative_witness :
    findVisual [vC6, cC6] = some vC6 ∧
    selectCollision (collisionCandidates [vC6, cC6]) = some cC6 ∧
    (processModel ["models"] "box" [vC6, cC6] 1050 "a" "b"
        (fun _ => defaultMeshSource) =
      .ok [⟨["models"] ++ ["box"] ++ ["model.config"],
            generate_model_config "box" "a" "b" 1 "Autogenerated model." (17 / 10)⟩,
           ⟨["models"] ++ ["box"] ++ ["model.urdf"],
            generate_urdf "box" (defaultMeshSource.mesh.volume * 1050)
              defaultMeshSource.mesh.center_mass defaultMeshSource.mesh.moment_inertia
              (joinPath (vC6.parents ++ [vC6.name]))
              (joinPath (cC6.parents ++ [cC6.name]))⟩] ∧
      relpath (absPath (["models"] ++ ["box"]) vC6) (["models"] ++ ["box"]) =
        joinPath (vC6.parents ++ [vC6.name]) ∧
      relpath (absPath (["models"] ++ ["box"]) cC6) (["models"] ++ ["box"]) =
        joinPath (cC6.parents ++ [cC6.name]) ∧
      startsWithSlash (relpath (absPath (["models"] ++ ["box"]) vC6)
        (["models"] ++ ["box"])) = false ∧
      startsWithSlash (relpath (absPath (["models"] ++ ["box"]) cC6)
        (["models"] ++ ["box"])) = false) :=
  ⟨by decide, by decide,
   C6_mesh_paths_relative ["models"] "box" [vC6, cC6] 1050 "a" "b"
     (fun _ => defaultMeshSource) vC6 cC6
     (defaultMeshSource.mesh.volume * 1050) defaultMeshSource.mesh.center_mass
     defaultMeshSource.mesh.moment_inertia
     (by decide) (by decide) rfl (by decide) (by decide)⟩

/-- C8: for every model whose stored description resolves to an `.sdf` file,
requesting any URDF resource type (`URDF_FILE`, `URDF_PATH` or `URDF_STRING`)
from `get_model_resource` fails with `UnsupportedConversion` (the source's
`ValueError("SDF to URDF conversion is not supported")`), with no retry or
fallback path. -/
theorem C8_sdf_to_urdf_unsupported (fs : Fs) (models_path : List String)
    (readFile : String → String) (scenarioAvailable : Bool)
    (urdffile_to_sdfstring : String → String) (model_name p : String)
    (resource_type : ResourceType)
    (h1 : get_model_file fs models_path model_name = .ok p)
    (h2 : endswith p ".sdf" = true) (h3 : endswith p ".urdf" = false)
    (hrt : resource_type = .URDF_FILE ∨ resource_type = .URDF_PATH ∨
      resource_type = .URDF_STRING) :
    get_model_resource fs models_path readFile scenarioAvailable
      urdffile_to_sdfstring model_name resource_type =
        .error .unsupportedConversion := by
  rcases hrt with h | h | h <;> subst h <;>
    simp [get_model_resource, h1, h2, h3]

/-- The models tree used to witness C8: one model stored as an SDF file. -/
def fsC8 : Fs := ⟨[⟨"box", [⟨[], "model.sdf"⟩]⟩]⟩

/-- Witness for C8: the SDF-stored model rejects a URDF resource request. -/
theorem C8_sdf_to_urdf_unsupported_witness :
    get_model_file fsC8 ["models"] "box" = .ok "models/box/model.sdf" ∧
    endswith "models/box/model.sdf" ".sdf" = true ∧
    endswith "models/box/model.sdf" ".urdf" = false ∧
    get_model_resource fsC8 ["models"] (fun _ => "") true (fun s => s) "box"
      .URDF_PATH = .error .unsupportedConversion :=
  ⟨rfl, by decide, by decide,
   C8_sdf_to_urdf_unsupported fsC8 ["models"] (fun _ => "") true (fun s => s)
     "box" "models/box/model.sdf" .URDF_PATH rfl (by decide) (by decide)
     (Or.inr (Or.inl rfl))⟩

end RbsAssets
